import Mathlib

/-!
Verification of the KPI query compiler and asynchronous execution engine
of the ci_capabilities_api repository. The definitions below are shallow
embeddings of the handler drafts in src/api/query.ts, src/api/filters.ts
and src/unnamed/part_000 .. part_003; theorems at the end settle the
spec's claims about them.
-/

/-- Character class kept by the identifier sanitizer regex
`[^a-zA-Z0-9_]` of part_001 line 488 (characters that survive). -/
def isIdentChar (c : Char) : Bool := c.isAlpha || c.isDigit || c = '_'

/-- part_001 line 488: `const sanitize = (val) => val.replace(/[^a-zA-Z0-9_]/g, "")`. -/
def sanitize (s : String) : String := ⟨s.data.filter isIdentChar⟩

/-- part_002 line 156 (and part_001 line 188): `s.replace(/'/g, "''")` —
literal-mode escaping that doubles every embedded single quote. -/
def escapeLiteralDouble (s : String) : String :=
  ⟨s.data.flatMap (fun c => if c = '\'' then ['\'', '\''] else [c])⟩

/-- query.ts line 118 (and 123, 128, 133, 138): `b.replace(/'/g, "")` —
literal-mode transformation that removes every single quote. -/
def escapeLiteralStrip (s : String) : String :=
  ⟨s.data.filter (fun c => c != '\'')⟩

/-- query.ts line 83: `max_month.replace(/[^0-9]/g, "")`. -/
def stripNonDigits (s : String) : String := ⟨s.data.filter Char.isDigit⟩

/-- JavaScript `s.substring(0, n)`. -/
def jsSubstring0 (n : Nat) (s : String) : String := ⟨s.data.take n⟩

/-- query.ts lines 83-101: date-scope resolution with sanitization and a
length-6 check; MTD and malformed inputs produce an equality predicate,
well-formed YTD a closed range. -/
def dateConditionQ (scope max_month : String) : String :=
  let safeMonth := stripNonDigits max_month
  if scope = "MTD" then
    "month = '" ++ safeMonth ++ "'"
  else if safeMonth.length = 6 then
    let year := jsSubstring0 4 safeMonth
    let startMonth := year ++ "01"
    "month >= '" ++ startMonth ++ "' AND month <= '" ++ safeMonth ++ "'"
  else
    "month = '" ++ safeMonth ++ "'"

/-- part_002 lines 148-153 (identical in part_001 lines 178-183):
time-scope condition built from the raw `max_month`, no sanitization,
no length check. -/
def timeConditionV4 (scope max_month : String) : String :=
  if scope = "MTD" then
    "cal_yr_mo_nbr = " ++ max_month
  else
    let startOfYear := jsSubstring0 4 max_month ++ "01"
    "cal_yr_mo_nbr BETWEEN " ++ startOfYear ++ " AND " ++ max_month

/-- query.ts lines 29-37: the fields the handler destructures from the
request body. Fields not listed in the destructuring are dropped by the
handler and so are absent here as well. -/
structure QFilters where
  include_ao : Bool := false
  megabrand : List String := []
  region : List String := []
  state : List String := []
  wholesaler_id : List String := []
  channel : List String := []
deriving DecidableEq

/-- query.ts request body shape (lines 29-37). -/
structure QBody where
  contract_version : String := ""
  kpi : String := ""
  groupBy : String := ""
  max_month : String := ""
  scope : String := ""
  filters : QFilters := {}
  months : List String := []
deriving DecidableEq

/-- query.ts filter-literal quoting, e.g. line 118:
`filters.megabrand.map((b) => `'${b.replace(/'/g, "")}'`).join(",")`. -/
def quotedListQ (vs : List String) : String :=
  String.intercalate "," (vs.map (fun v => "'" ++ escapeLiteralStrip v ++ "'"))

/-- query.ts lines 106-140: the ordered list of WHERE-clause parts. -/
def wherePartsQ (dateCondition : String) (f : QFilters) : List String :=
  [dateCondition]
  ++ (if f.include_ao = true then [] else ["megabrand != 'AO'"])
  ++ (if f.megabrand.isEmpty then [] else ["megabrand IN (" ++ quotedListQ f.megabrand ++ ")"])
  ++ (if f.region.isEmpty then [] else ["sls_regn_cd IN (" ++ quotedListQ f.region ++ ")"])
  ++ (if f.state.isEmpty then [] else ["mktng_st_cd IN (" ++ quotedListQ f.state ++ ")"])
  ++ (if f.wholesaler_id.isEmpty then [] else ["wslr_nbr IN (" ++ quotedListQ f.wholesaler_id ++ ")"])
  ++ (if f.channel.isEmpty then [] else ["channel IN (" ++ quotedListQ f.channel ++ ")"])

/-- query.ts line 143: `whereParts.filter(Boolean).join(" AND ")`. -/
def whereClauseQ (dateCondition : String) (f : QFilters) : String :=
  String.intercalate " AND " ((wherePartsQ dateCondition f).filter (fun p => p != ""))

/-- query.ts lines 47-77: the switch mapping the requested KPI to a table,
with `mbmc_actuals_volume` as the default fallback. -/
def resolveTable (kpi : String) : String :=
  if kpi = "volume" then "mbmc_actuals_volume"
  else if kpi = "revenue" then "mbmc_actuals_revenue"
  else if kpi = "share" then "mbmc_actuals_share"
  else if kpi = "adshare" then "mbmc_actuals_adshare"
  else if kpi = "pods" then "mbmc_actuals_pods"
  else if kpi = "taps" then "mbmc_actuals_taps"
  else if kpi = "displays" then "mbmc_actuals_displays"
  else if kpi = "avd" then "mbmc_actuals_avd"
  else "mbmc_actuals_volume"

/-- query.ts lines 150-183: group column and order-by switch, returned as
the pair (groupCol, orderBy). -/
def groupingQ (groupBy : String) : String × String :=
  if groupBy = "region" then ("sls_regn_cd", "ORDER BY 2 DESC")
  else if groupBy = "state" then ("mktng_st_cd", "ORDER BY 2 DESC")
  else if groupBy = "wholesaler" then ("wslr_nbr", "ORDER BY 2 DESC")
  else if groupBy = "channel" then ("channel", "ORDER BY 2 DESC")
  else if groupBy = "megabrand" then ("megabrand", "ORDER BY 2 DESC")
  else if groupBy = "total" then ("'Total'", "")
  else ("month", "ORDER BY 1 ASC")

/-- query.ts line 188. -/
def NON_ADDITIVE_KPIS : List String := ["share", "adshare", "avd"]

/-- query.ts line 189: `NON_ADDITIVE_KPIS.includes(kpi) ? "AVG" : "SUM"`. -/
def aggFuncQ (kpi : String) : String :=
  if NON_ADDITIVE_KPIS.contains kpi then "AVG" else "SUM"

/-- The compiled-statement components of query.ts, mirroring the local
variables the handler assembles before interpolating the SQL template. -/
structure CompiledQ where
  groupCol : String
  aggFunc : String
  table : String
  whereClause : String
  orderBy : String
  rowLimit : Nat
deriving DecidableEq

/-- query.ts lines 47-201: compilation of a request body into the
statement components. -/
def compileQ (b : QBody) : CompiledQ :=
  { groupCol := (groupingQ b.groupBy).1
    aggFunc := aggFuncQ b.kpi
    table := resolveTable b.kpi
    whereClause := whereClauseQ (dateConditionQ b.scope b.max_month) b.filters
    orderBy := (groupingQ b.groupBy).2
    rowLimit := 5000 }

/-- query.ts lines 191-201: the SQL template. -/
def renderQ (c : CompiledQ) : String :=
  "\n      SELECT \n        " ++ c.groupCol ++ " as key,\n        "
  ++ c.aggFunc ++ "(value_cy) as val_cy,\n        "
  ++ c.aggFunc ++ "(value_ly) as val_ly\n      FROM commercial_dev.capabilities." ++ c.table
  ++ "\n      WHERE " ++ c.whereClause
  ++ "\n      GROUP BY 1\n      " ++ c.orderBy
  ++ "\n      LIMIT " ++ toString c.rowLimit ++ "\n    "

/-- Outcome of the query.ts handler up to statement submission: either the
missing-parameter 400 (lines 39-41) or a submit of the compiled SQL
(line 211); every other path of the handler lies beyond the submit call. -/
inductive QOutcome
  | badRequest (msg : String)
  | submit (sql : String)
deriving DecidableEq

/-- query.ts lines 39-41 then 47-222: parameter guard, compilation, submit. -/
def queryTsOutcome (b : QBody) : QOutcome :=
  if b.kpi = "" || b.max_month = "" then
    .badRequest "Missing required parameters: 'kpi' or 'max_month'"
  else
    .submit (renderQ (compileQ b))

/-- part_002 line 15: the `agg` field of a KPI_MAP entry. -/
inductive Agg
  | SUM
  | AVG
deriving DecidableEq

/-- Text of the aggregation function as interpolated into the statement. -/
def Agg.render : Agg → String
  | .SUM => "SUM"
  | .AVG => "AVG"

/-- part_002 lines 8-17: the value type of KPI_MAP (agg_logic_v4). -/
structure KpiConfig where
  table : String
  col : String
  hasChannel : Bool
  geoColumn : String
  agg : Agg
deriving DecidableEq

/-- part_002 lines 8-80: the KPI registry of the agg_logic_v4 handler.
Lookup in a JS object literal is exact key match. -/
def KPI_MAP (k : String) : Option KpiConfig :=
  if k = "volume" then some ⟨"mbmc_actuals_volume", "STRs", true, "WSLR_NBR", .SUM⟩
  else if k = "revenue" then some ⟨"mbmc_actuals_revenue", "net_rev", false, "WSLR_NBR", .SUM⟩
  else if k = "displays" then some ⟨"mbmc_actuals_displays", "displays", true, "WSLR_NBR", .SUM⟩
  else if k = "share" then some ⟨"mbmc_actuals_bir", "shr", true, "WSLR_NBR", .AVG⟩
  else if k = "adshare" then some ⟨"mbmc_actuals_ads", "ad_share", true, "KAM", .AVG⟩
  else if k = "pods" then some ⟨"mbmc_actuals_distro", "pods", true, "WSLR_NBR", .SUM⟩
  else if k = "taps" then some ⟨"mbmc_actuals_distro", "taps", true, "WSLR_NBR", .SUM⟩
  else if k = "avd" then some ⟨"mbmc_actuals_distro", "avd", true, "WSLR_NBR", .AVG⟩
  else none

/-- part_001 lines 8-11: the value type of KPI_MAP (multi_table_v2),
which carries no aggregation field. -/
structure KpiConfigV2 where
  table : String
  col : String
  hasChannel : Bool
  geoColumn : String
deriving DecidableEq

/-- part_001 lines 8-65: the KPI registry of the multi_table_v2 handler. -/
def KPI_MAP_v2 (k : String) : Option KpiConfigV2 :=
  if k = "volume" then some ⟨"mbmc_actuals_volume", "VAL", true, "WSLR_NBR"⟩
  else if k = "revenue" then some ⟨"mbmc_actuals_revenue", "VAL", false, "WSLR_NBR"⟩
  else if k = "share" then some ⟨"mbmc_actuals_bir", "VAL", true, "WSLR_NBR"⟩
  else if k = "displays" then some ⟨"mbmc_actuals_displays", "VAL", true, "WSLR_NBR"⟩
  else if k = "pods" then some ⟨"mbmc_actuals_distro", "PODS", true, "WSLR_NBR"⟩
  else if k = "taps" then some ⟨"mbmc_actuals_distro", "TAPS", true, "WSLR_NBR"⟩
  else if k = "avd" then some ⟨"mbmc_actuals_distro", "AVD", true, "WSLR_NBR"⟩
  else if k = "adshare" then some ⟨"mbmc_actuals_ads", "VAL", true, "KAM_ID"⟩
  else none

/-- part_002 lines 88-92 (identical in part_001 lines 79-83): the filter
sets of the KpiRequestV1 contract. -/
structure V4Filters where
  megabrand : List String := []
  wholesaler_id : List String := []
  channel : List String := []
deriving DecidableEq

/-- part_002 line 134 (and part_001 lines 153-159): the destructured
request fields of the KPI_MAP handlers, with their defaults. -/
structure V4Body where
  contract_version : String := "kpi_request.v1"
  kpi : String := ""
  groupBy : String := "time"
  max_month : String := "202512"
  scope : String := "YTD"
  filters : V4Filters := {}
deriving DecidableEq

/-- part_002 line 156: `filters.megabrand.map((s) => `'${s.replace(/'/g, "''")}'`).join(",")`. -/
def quotedListV4 (vs : List String) : String :=
  String.intercalate "," (vs.map (fun v => "'" ++ escapeLiteralDouble v ++ "'"))

/-- part_002 lines 146-158 (and part_001 lines 175-191): the conjunct
list, seeded with the `1=1` tautology. -/
def conditionsV4 (scope max_month : String) (f : V4Filters) : List String :=
  ["1=1", timeConditionV4 scope max_month]
  ++ (if f.megabrand.isEmpty then [] else ["megabrand IN (" ++ quotedListV4 f.megabrand ++ ")"])

/-- The (selectClause, groupByClause, orderByClause) triple of the
KPI_MAP handlers' grouping switch. -/
structure Grouping where
  selectClause : String
  groupByClause : String
  orderByClause : String
deriving DecidableEq

/-- part_002 lines 160-203: the grouping switch of agg_logic_v4. -/
def resolveGroupingV4 (groupBy : String) (cfg : KpiConfig) : Grouping :=
  if groupBy = "megabrand" then ⟨"megabrand as dimension", "GROUP BY megabrand", "ORDER BY val_cy DESC"⟩
  else if groupBy = "region" then ⟨"sls_regn_cd as dimension", "GROUP BY sls_regn_cd", "ORDER BY val_cy DESC"⟩
  else if groupBy = "state" then ⟨"mktng_st_cd as dimension", "GROUP BY mktng_st_cd", "ORDER BY val_cy DESC"⟩
  else if groupBy = "wholesaler" then
    ⟨cfg.geoColumn ++ " as dimension", "GROUP BY " ++ cfg.geoColumn, "ORDER BY val_cy DESC"⟩
  else if groupBy = "channel" then
    if cfg.hasChannel then
      ⟨"channel as dimension", "GROUP BY channel", "ORDER BY val_cy DESC"⟩
    else
      ⟨"'All Channels' as dimension", "", "ORDER BY val_cy DESC"⟩
  else ⟨"cal_yr_mo_nbr as dimension", "GROUP BY cal_yr_mo_nbr", "ORDER BY cal_yr_mo_nbr ASC"⟩

/-- part_001 lines 193-238: the grouping switch of multi_table_v2 (its
region and state columns differ from agg_logic_v4). -/
def resolveGroupingV2 (groupBy : String) (cfg : KpiConfigV2) : Grouping :=
  if groupBy = "megabrand" then ⟨"megabrand as dimension", "GROUP BY megabrand", "ORDER BY val_cy DESC"⟩
  else if groupBy = "region" then ⟨"sls_regn_nm as dimension", "GROUP BY sls_regn_nm", "ORDER BY val_cy DESC"⟩
  else if groupBy = "state" then ⟨"state_cd as dimension", "GROUP BY state_cd", "ORDER BY val_cy DESC"⟩
  else if groupBy = "wholesaler" then
    ⟨cfg.geoColumn ++ " as dimension", "GROUP BY " ++ cfg.geoColumn, "ORDER BY val_cy DESC"⟩
  else if groupBy = "channel" then
    if cfg.hasChannel then
      ⟨"channel as dimension", "GROUP BY channel", "ORDER BY val_cy DESC"⟩
    else
      ⟨"'All Channels' as dimension", "", "ORDER BY val_cy DESC"⟩
  else ⟨"cal_yr_mo_nbr as dimension", "GROUP BY cal_yr_mo_nbr", "ORDER BY cal_yr_mo_nbr ASC"⟩

/-- The compiled-statement components of the agg_logic_v4 handler
(part_002 lines 140-216), mirroring its local variables. -/
structure CompiledV4 where
  selectClause : String
  aggFunc : Agg
  colCy : String
  colLy : String
  tableName : String
  whereConj : String
  groupByClause : String
  orderByClause : String
  rowLimit : Nat
deriving DecidableEq

/-- part_002 lines 136-216: registry lookup (none on a miss) and assembly
of the statement components. -/
def compileV4 (b : V4Body) : Option CompiledV4 :=
  (KPI_MAP b.kpi).map fun config =>
    let g := resolveGroupingV4 b.groupBy config
    { selectClause := g.selectClause
      aggFunc := config.agg
      colCy := config.col ++ "_CY"
      colLy := config.col ++ "_LY"
      tableName := "commercial_dev.capabilities." ++ config.table
      whereConj := String.intercalate " AND " (conditionsV4 b.scope b.max_month b.filters)
      groupByClause := g.groupByClause
      orderByClause := g.orderByClause
      rowLimit := 1000 }

/-- part_002 lines 207-216: the finalSql template of agg_logic_v4, whose
aggregation function comes from the registry entry. -/
def renderV4 (c : CompiledV4) : String :=
  "\n      SELECT " ++ c.selectClause ++ ",\n      "
  ++ c.aggFunc.render ++ "(" ++ c.colCy ++ ") as val_cy,\n      "
  ++ c.aggFunc.render ++ "(" ++ c.colLy ++ ") as val_ly\n      FROM " ++ c.tableName
  ++ "\n      WHERE " ++ c.whereConj
  ++ "\n      " ++ c.groupByClause
  ++ "\n      " ++ c.orderByClause
  ++ "\n      LIMIT " ++ toString c.rowLimit ++ "\n    "

/-- The compiled-statement components of the multi_table_v2 handler
(part_001 lines 170-249); it has no aggregation component because its
template hardcodes SUM. -/
structure CompiledMT where
  selectClause : String
  colCy : String
  colLy : String
  tableName : String
  whereConj : String
  groupByClause : String
  orderByClause : String
  rowLimit : Nat
deriving DecidableEq

/-- part_001 lines 162-249: registry lookup and assembly for multi_table_v2. -/
def compileMT (b : V4Body) : Option CompiledMT :=
  (KPI_MAP_v2 b.kpi).map fun config =>
    let g := resolveGroupingV2 b.groupBy config
    { selectClause := g.selectClause
      colCy := config.col ++ "_CY"
      colLy := config.col ++ "_LY"
      tableName := "commercial_dev.capabilities." ++ config.table
      whereConj := String.intercalate " AND " (conditionsV4 b.scope b.max_month b.filters)
      groupByClause := g.groupByClause
      orderByClause := g.orderByClause
      rowLimit := 1000 }

/-- part_001 lines 240-249: the finalSql template of multi_table_v2,
which interpolates SUM unconditionally. -/
def renderMT (c : CompiledMT) : String :=
  "\n      SELECT " ++ c.selectClause ++ ",\n      SUM(" ++ c.colCy ++ ") as val_cy,\n      SUM("
  ++ c.colLy ++ ") as val_ly\n      FROM " ++ c.tableName
  ++ "\n      WHERE " ++ c.whereConj
  ++ "\n      " ++ c.groupByClause
  ++ "\n      " ++ c.orderByClause
  ++ "\n      LIMIT " ++ toString c.rowLimit ++ "\n    "

/-- A network call to the remote statement-execution service. -/
inductive NetAction
  | submit (sql : String)
  | poll
  | cancel
deriving DecidableEq

/-- Outcome of the agg_logic_v4 handler at the registry lookup
(part_002 lines 136-138): a 400 on a miss, otherwise execution of the
compiled statement. -/
inductive V4Front
  | invalidRequest (msg : String)
  | execute (sql : String)
deriving DecidableEq

/-- part_002 lines 136-219: lookup miss returns the 400 before any code
that touches the network; a hit proceeds to compilation and submission. -/
def v4Front (b : V4Body) : V4Front :=
  match compileV4 b with
  | none => .invalidRequest ("KPI '" ++ b.kpi ++ "' is not configured in API map.")
  | some c => .execute (renderV4 c)

/-- Network calls the agg_logic_v4 handler issues: none when the registry
lookup misses (the submit at line 219 and the poll loop at lines 234-243
are only reached on a hit); on a hit, the submit followed by whatever the
polling phase performs (passed in as `pollCalls`). -/
def v4Calls (b : V4Body) (pollCalls : List NetAction) : List NetAction :=
  match compileV4 b with
  | none => []
  | some c => NetAction.submit (renderV4 c) :: pollCalls

/-- filters.ts line 48. -/
def ALLOWED_COLS : List String := ["wslr_nbr", "mktng_st_cd", "sls_regn_cd", "channel"]

/-- filters.ts line 49. -/
def ALLOWED_TABLES : List String := ["mbmc_actuals_volume", "mbmc_actuals_revenue", "mbmc_actuals_distro"]

/-- part_000 line 46 (the filters_v3_patience draft adds megabrand). -/
def ALLOWED_COLS_v3 : List String := ["wslr_nbr", "mktng_st_cd", "sls_regn_cd", "channel", "megabrand"]

/-- part_000 line 47. -/
def ALLOWED_TABLES_v3 : List String := ["mbmc_actuals_volume", "mbmc_actuals_revenue", "mbmc_actuals_distro"]

/-- Outcome of the distinct-value listing handlers up to statement
submission: missing fields (400), allowlist rejection (400), or a submit
of the built SQL. -/
inductive FiltersFront
  | missingFields
  | invalidPair (msg : String)
  | execute (sql : String)
deriving DecidableEq

/-- filters.ts lines 61-67: the distinct-value SQL template. -/
def filtersSql (dimension tbl : String) : String :=
  "\n      SELECT DISTINCT " ++ dimension ++ " as label \n      FROM commercial_dev.capabilities."
  ++ tbl ++ " \n      WHERE " ++ dimension ++ " IS NOT NULL \n      ORDER BY " ++ dimension
  ++ " ASC \n      LIMIT 2000\n    "

/-- part_000 lines 58-64: same template but ordered by the alias. -/
def filtersSqlV3 (dimension tbl : String) : String :=
  "\n      SELECT DISTINCT " ++ dimension ++ " as label \n      FROM commercial_dev.capabilities."
  ++ tbl ++ " \n      WHERE " ++ dimension ++ " IS NOT NULL \n      ORDER BY label ASC \n      LIMIT 2000\n    "

/-- filters.ts lines 40-74: field guard, allowlist guard, then SQL build
and submit. The SQL text exists only on the `execute` branch. -/
def filtersFront (dimension tbl : String) : FiltersFront :=
  if dimension = "" || tbl = "" then .missingFields
  else if !(ALLOWED_COLS.contains dimension) || !(ALLOWED_TABLES.contains tbl) then
    .invalidPair ("Invalid dimension '" ++ dimension ++ "' or table '" ++ tbl ++ "'")
  else .execute (filtersSql dimension tbl)

/-- part_000 lines 39-70: the same guards in the filters_v3 draft. -/
def filtersFrontV3 (dimension tbl : String) : FiltersFront :=
  if dimension = "" || tbl = "" then .missingFields
  else if !(ALLOWED_COLS_v3.contains dimension) || !(ALLOWED_TABLES_v3.contains tbl) then
    .invalidPair ("Invalid dimension '" ++ dimension ++ "' or table")
  else .execute (filtersSqlV3 dimension tbl)

/-- The remote statement states observed by polling. -/
inductive PollState
  | PENDING
  | RUNNING
  | SUCCEEDED
  | FAILED
  | CANCELED
  | CLOSED
deriving DecidableEq

/-- part_000 line 96: the states on which the loop throws. -/
def isThrowState (s : PollState) : Bool :=
  s = .FAILED || s = .CANCELED || s = .CLOSED

/-- Outcome of the part_000 polling phase. -/
inductive FiltersPollOutcome
  | success (resultIdx : Nat)
  | queryFailed (s : PollState)
  | timeout
deriving DecidableEq

/-- part_000 lines 81-107: the bounded polling loop of the
filters_v3_patience handler, with the post-loop best-effort cancel.
Time is abstracted to the number of loop iterations the 45 s deadline
still admits (`fuel`); `polls i` is the state reported by the i-th poll.
When the deadline expires with no result, the handler issues exactly the
one cancel call of lines 103-105 and returns the 504 timeout. -/
def filtersPollLoop (polls : Nat → PollState) : Nat → Nat → FiltersPollOutcome × List NetAction
  | 0, _ => (.timeout, [NetAction.cancel])
  | fuel+1, i =>
    let s := polls i
    if s = .SUCCEEDED then (.success i, [NetAction.poll])
    else if isThrowState s then (.queryFailed s, [NetAction.poll])
    else
      let r := filtersPollLoop polls fuel (i+1)
      (r.1, NetAction.poll :: r.2)

/-- part_002 lines 236 (and part_001 line 284): the terminal states of
the KPI handlers' loops. -/
def isTerminalV4 (s : PollState) : Bool :=
  s = .SUCCEEDED || s = .FAILED || s = .CANCELED

/-- part_002 lines 231-243 (identically part_001 lines 279-294): the
bounded polling loop of the KPI handlers. `last` is the state carried in
from the previous response (initially the submit response), `polls i` the
state of the i-th poll. Returns the last observed state; no branch of
this loop or of the code after it issues a cancel call. -/
def v4PollLoop (polls : Nat → PollState) : Nat → PollState → Nat → PollState × List NetAction
  | 0, last, _ => (last, [])
  | fuel+1, last, i =>
    if isTerminalV4 last then (last, [])
    else
      let r := v4PollLoop polls fuel (polls i) (i+1)
      (r.1, NetAction.poll :: r.2)

/-- The response the KPI handlers build after their loop. -/
inductive V4Final
  | ok200
  | error502 (msg : String)
deriving DecidableEq

/-- part_002 line 245 (and part_001 lines 296-302): any non-SUCCEEDED
final state—deadline expiry and remote failure alike—yields the one
combined 502 response. -/
def v4AfterLoop (finalState : PollState) : V4Final :=
  if finalState = .SUCCEEDED then .ok200 else .error502 "Query timed out or failed"

theorem count_double_quote (q : Char) (l : List Char) :
    (l.flatMap fun c => if c = q then [q, q] else [c]).count q = 2 * l.count q := by
  induction l with
  | nil => simp
  | cons c t ih =>
    by_cases h : c = q
    · subst h
      simp [List.count_cons, ih, Nat.mul_add]
    · simp [List.count_cons, h, ih]

theorem flatMap_double_id (q : Char) (l : List Char) (h : ∀ c ∈ l, c ≠ q) :
    (l.flatMap fun c => if c = q then [q, q] else [c]) = l := by
  induction l with
  | nil => simp
  | cons c t ih =>
    have hc : c ≠ q := h c (List.mem_cons_self c t)
    simp only [List.flatMap_cons, if_neg hc, List.singleton_append]
    rw [ih fun x hx => h x (List.mem_cons_of_mem c hx)]

theorem stripNonDigits_eq_self (s : String) (h : ∀ c ∈ s.data, c.isDigit = true) :
    stripNonDigits s = s := by
  cases s with
  | mk l => exact congrArg String.mk (List.filter_eq_self.mpr h)

/-- C1 counterexample: the literal-mode transformation of query.ts
(line 118) applied to a value with an embedded quote removes the quote
instead of doubling it, so the claim that the literal-mode
transformation doubles every embedded single quote fails on that code. -/
theorem c1_counterexample_strip_not_double :
    escapeLiteralStrip "a'b" = "ab" ∧ escapeLiteralStrip "a'b" ≠ "a''b" :=
  ⟨rfl, by decide⟩

/-- C1 (amended): identifier-mode sanitization yields only characters in
[A-Za-z0-9_] and is the identity on already-safe strings; the KPI_MAP
handler's literal-mode escaping doubles every embedded single quote and
is the identity on quote-free strings; the switch-based handler's
literal-mode transformation instead removes every single quote — its
output is quote-free and it too is the identity on quote-free strings. -/
theorem c1_sanitizer_and_literal_modes (s t u : String)
    (hs : ∀ c ∈ s.data, isIdentChar c = true)
    (ht : ∀ c ∈ t.data, c ≠ '\'') :
    (∀ c ∈ (sanitize u).data, isIdentChar c = true) ∧
    sanitize s = s ∧
    (escapeLiteralDouble u).data.count '\'' = 2 * u.data.count '\'' ∧
    escapeLiteralDouble t = t ∧
    escapeLiteralStrip t = t ∧
    (∀ c ∈ (escapeLiteralStrip u).data, c ≠ '\'') := by
  refine ⟨?_, ?_, ?_, ?_, ?_, ?_⟩
  · intro c hc
    exact (List.mem_filter.mp hc).2
  · cases s with
    | mk l => exact congrArg String.mk (List.filter_eq_self.mpr hs)
  · exact count_double_quote _ u.data
  · cases t with
    | mk l => exact congrArg String.mk (flatMap_double_id _ l ht)
  · cases t with
    | mk l =>
      refine congrArg String.mk (List.filter_eq_self.mpr ?_)
      intro a ha
      exact bne_iff_ne.mpr (ht a ha)
  · intro c hc
    exact bne_iff_ne.mp (List.mem_filter.mp hc).2

/-- C1 witness: the amended theorem evaluated at concrete inputs. -/
theorem c1_witness :
    (∀ c ∈ (sanitize "O'Brien; DROP TABLE x").data, isIdentChar c = true) ∧
    sanitize "safe_Name_01" = "safe_Name_01" ∧
    (escapeLiteralDouble "O'Brien; DROP TABLE x").data.count '\'' =
      2 * ("O'Brien; DROP TABLE x").data.count '\'' ∧
    escapeLiteralDouble "OBrien" = "OBrien" ∧
    escapeLiteralStrip "OBrien" = "OBrien" ∧
    (∀ c ∈ (escapeLiteralStrip "O'Brien; DROP TABLE x").data, c ≠ '\'') :=
  c1_sanitizer_and_literal_modes "safe_Name_01" "OBrien" "O'Brien; DROP TABLE x"
    (by decide) (by decide)

set_option maxRecDepth 4000

/-- C2: the multi_table_v2 handler (part_001) compiles the non-additive
KPI `share` — which the registry of agg_logic_v4 declares AVG and which
query.ts lists among NON_ADDITIVE_KPIS — with SUM applied to its _CY and
_LY measure columns, contradicting its own later draft's documentation
that shares must be averaged, never summed. -/
theorem c2_share_compiled_with_sum :
    (KPI_MAP "share").map KpiConfig.agg = some Agg.AVG ∧
    NON_ADDITIVE_KPIS.contains "share" = true ∧
    (compileMT { kpi := "share" }).map renderMT =
      some ("\n      SELECT cal_yr_mo_nbr as dimension,\n      SUM(VAL_CY) as val_cy,\n      SUM(VAL_LY) as val_ly\n      FROM commercial_dev.capabilities.mbmc_actuals_bir\n      WHERE 1=1 AND cal_yr_mo_nbr BETWEEN 202501 AND 202512\n      GROUP BY cal_yr_mo_nbr\n      ORDER BY cal_yr_mo_nbr ASC\n      LIMIT 1000\n    ") ∧
    (compileV4 { kpi := "share" }).map CompiledV4.aggFunc = some Agg.AVG :=
  ⟨rfl, rfl, rfl, rfl⟩

/-- C3 counterexample: in the switch-based handler (query.ts) the
unresolvable KPI name bogus does not produce a client error — the switch
falls back to the volume table, SQL is compiled and submitted. -/
theorem c3_counterexample_bogus_kpi_submits :
    queryTsOutcome { kpi := "bogus", max_month := "202507" } =
      QOutcome.submit (renderQ (compileQ { kpi := "bogus", max_month := "202507" })) ∧
    (compileQ { kpi := "bogus", max_month := "202507" }).table = "mbmc_actuals_volume" :=
  ⟨rfl, rfl⟩

/-- C3 (amended): in the KPI_MAP handlers, a request whose kpi does not
resolve in the registry is answered with the client-facing 400
InvalidRequest and no network call is made; in the switch-based query.ts
handler an unknown kpi instead falls back to the volume table and the
query proceeds. -/
theorem c3_unresolved_kpi_invalid_request (b : V4Body) (pollCalls : List NetAction)
    (h : KPI_MAP b.kpi = none) :
    v4Front b = V4Front.invalidRequest ("KPI '" ++ b.kpi ++ "' is not configured in API map.") ∧
    v4Calls b pollCalls = [] := by
  unfold v4Front v4Calls compileV4
  rw [h]
  exact ⟨rfl, rfl⟩

/-- C3 witness: the amended theorem at the spec's example input bogus. -/
theorem c3_witness :
    v4Front { kpi := "bogus" } =
      V4Front.invalidRequest "KPI 'bogus' is not configured in API map." ∧
    v4Calls { kpi := "bogus" } [NetAction.poll] = [] :=
  c3_unresolved_kpi_invalid_request { kpi := "bogus" } [NetAction.poll] rfl

theorem filtersPollLoop_pending (polls : Nat → PollState)
    (h : ∀ j, polls j = PollState.PENDING) (fuel : Nat) :
    ∀ i, (filtersPollLoop polls fuel i).1 = FiltersPollOutcome.timeout ∧
      (filtersPollLoop polls fuel i).2.count NetAction.cancel = 1 := by
  induction fuel with
  | zero =>
    intro i
    simp [filtersPollLoop]
  | succ n ih =>
    intro i
    have hp := h i
    have hrec := ih (i + 1)
    simp [filtersPollLoop, hp, isThrowState, hrec.1, hrec.2, List.count_cons]

theorem v4PollLoop_no_cancel (polls : Nat → PollState) (fuel : Nat) :
    ∀ last i, (v4PollLoop polls fuel last i).2.count NetAction.cancel = 0 := by
  induction fuel with
  | zero =>
    intro last i
    simp [v4PollLoop]
  | succ n ih =>
    intro last i
    by_cases ht : isTerminalV4 last = true
    · simp [v4PollLoop, ht]
    · simp [v4PollLoop, ht, List.count_cons, ih (polls i) (i + 1)]

/-- C4 counterexample: in the KPI handlers' polling loop (part_002 and
part_001), a run that never leaves PENDING before the deadline issues
zero cancel calls — not exactly one — and the resulting 502 response is
the very response produced for a remote FAILED state, so the timeout is
not surfaced distinctly either. -/
theorem c4_counterexample_v4_no_cancel :
    (v4PollLoop (fun _ => PollState.PENDING) 3 PollState.PENDING 0).2.count NetAction.cancel = 0 ∧
    v4AfterLoop (v4PollLoop (fun _ => PollState.PENDING) 3 PollState.PENDING 0).1 =
      V4Final.error502 "Query timed out or failed" ∧
    v4AfterLoop PollState.FAILED = V4Final.error502 "Query timed out or failed" :=
  ⟨rfl, rfl, rfl⟩

/-- C4 (amended): in the distinct-value listing client (part_000), a
polled state that never becomes terminal before the deadline yields the
timeout outcome — a constructor distinct from the query-failure outcome —
together with exactly one cancel call; the KPI handlers' polling loops
(part_001/part_002) never issue a cancel call at all, and on expiry they
answer with the combined 502 response that is identical to the response
for a remote failure. -/
theorem c4_timeout_and_cancel (polls : Nat → PollState) (fuel i : Nat)
    (h : ∀ j, polls j = PollState.PENDING) :
    (filtersPollLoop polls fuel i).1 = FiltersPollOutcome.timeout ∧
    (filtersPollLoop polls fuel i).2.count NetAction.cancel = 1 ∧
    (∀ fuel2 last i2, (v4PollLoop polls fuel2 last i2).2.count NetAction.cancel = 0) ∧
    v4AfterLoop PollState.PENDING = v4AfterLoop PollState.FAILED := by
  refine ⟨(filtersPollLoop_pending polls h fuel i).1,
    (filtersPollLoop_pending polls h fuel i).2, ?_, rfl⟩
  intro fuel2 last i2
  exact v4PollLoop_no_cancel polls fuel2 last i2

/-- C4 witness: the amended theorem on a concrete always-PENDING run. -/
theorem c4_witness :
    (filtersPollLoop (fun _ => PollState.PENDING) 3 0).1 = FiltersPollOutcome.timeout ∧
    (filtersPollLoop (fun _ => PollState.PENDING) 3 0).2.count NetAction.cancel = 1 ∧
    (∀ fuel2 last i2,
      (v4PollLoop (fun _ => PollState.PENDING) fuel2 last i2).2.count NetAction.cancel = 0) ∧
    v4AfterLoop PollState.PENDING = v4AfterLoop PollState.FAILED :=
  c4_timeout_and_cancel (fun _ => PollState.PENDING) 3 0 (fun _ => rfl)

/-- C5: for a six-digit numeric maxMonth, YTD scope compiles a closed
range on the canonical month column from January of that year through
maxMonth inclusive, and MTD scope an equality on exactly maxMonth — in
both the switch-based handler (query.ts) and the KPI_MAP handlers. -/
theorem c5_scope_predicates (m : String)
    (hd : ∀ c ∈ m.data, c.isDigit = true) (hl : m.length = 6) :
    dateConditionQ "YTD" m =
      "month >= '" ++ (jsSubstring0 4 m ++ "01") ++ "' AND month <= '" ++ m ++ "'" ∧
    dateConditionQ "MTD" m = "month = '" ++ m ++ "'" ∧
    timeConditionV4 "YTD" m =
      "cal_yr_mo_nbr BETWEEN " ++ (jsSubstring0 4 m ++ "01") ++ " AND " ++ m ∧
    timeConditionV4 "MTD" m = "cal_yr_mo_nbr = " ++ m := by
  have hm : stripNonDigits m = m := stripNonDigits_eq_self m hd
  refine ⟨?_, ?_, rfl, rfl⟩
  · have e1 : dateConditionQ "YTD" m =
        if (stripNonDigits m).length = 6 then
          "month >= '" ++ (jsSubstring0 4 (stripNonDigits m) ++ "01") ++ "' AND month <= '"
            ++ stripNonDigits m ++ "'"
        else "month = '" ++ stripNonDigits m ++ "'" := rfl
    rw [e1, hm, if_pos hl]
  · have e2 : dateConditionQ "MTD" m = "month = '" ++ stripNonDigits m ++ "'" := rfl
    rw [e2, hm]

/-- C5 witness: the spec's example maxMonth 202507. -/
theorem c5_witness :
    dateConditionQ "YTD" "202507" = "month >= '202501' AND month <= '202507'" ∧
    dateConditionQ "MTD" "202507" = "month = '202507'" ∧
    timeConditionV4 "YTD" "202507" = "cal_yr_mo_nbr BETWEEN 202501 AND 202507" ∧
    timeConditionV4 "MTD" "202507" = "cal_yr_mo_nbr = 202507" :=
  c5_scope_predicates "202507" (by decide) (by decide)

/-- C6 counterexample: the KPI_MAP handlers do not sanitize maxMonth nor
check its length; under YTD a five-digit maxMonth produces a BETWEEN
range built from substring(0,4), not the single-month equality the claim
requires. -/
theorem c6_counterexample_v4_range :
    timeConditionV4 "YTD" "20257" = "cal_yr_mo_nbr BETWEEN 202501 AND 20257" ∧
    timeConditionV4 "YTD" "20257" ≠ "cal_yr_mo_nbr = 20257" :=
  ⟨rfl, by decide⟩

/-- C6 (amended): in the switch-based handler (query.ts), a maxMonth
whose digits-only sanitization is not exactly six characters long always
degrades to a single-month equality predicate on the sanitized value,
for every scope; the KPI_MAP handlers instead interpolate the raw
max_month unsanitized, and under YTD always emit a BETWEEN range built
from its first four characters plus 01. -/
theorem c6_malformed_month_fallback (scope m m2 : String)
    (h : (stripNonDigits m).length ≠ 6) :
    dateConditionQ scope m = "month = '" ++ stripNonDigits m ++ "'" ∧
    timeConditionV4 "YTD" m2 =
      "cal_yr_mo_nbr BETWEEN " ++ (jsSubstring0 4 m2 ++ "01") ++ " AND " ++ m2 := by
  refine ⟨?_, rfl⟩
  simp only [dateConditionQ]
  split_ifs with h1 <;> rfl

/-- C6 witness: the amended theorem at a five-digit maxMonth. -/
theorem c6_witness :
    dateConditionQ "YTD" "20257" = "month = '20257'" ∧
    timeConditionV4 "YTD" "20257x" = "cal_yr_mo_nbr BETWEEN 202501 AND 20257x" :=
  c6_malformed_month_fallback "YTD" "20257" "20257x" (by decide)

theorem resolveGroupingV4_channel (c : KpiConfig) :
    resolveGroupingV4 "channel" c =
      if c.hasChannel then
        ⟨"channel as dimension", "GROUP BY channel", "ORDER BY val_cy DESC"⟩
      else ⟨"'All Channels' as dimension", "", "ORDER BY val_cy DESC"⟩ := rfl

theorem resolveGroupingV2_channel (c : KpiConfigV2) :
    resolveGroupingV2 "channel" c =
      if c.hasChannel then
        ⟨"channel as dimension", "GROUP BY channel", "ORDER BY val_cy DESC"⟩
      else ⟨"'All Channels' as dimension", "", "ORDER BY val_cy DESC"⟩ := rfl

/-- C7: for any request grouping by channel against a registered KPI, the
KPI_MAP handlers compile no GROUP BY clause and use the constant literal
dimension All Channels when the registry entry has hasChannel = false,
and use the channel column with an emitted GROUP BY when it is true;
likewise for the multi_table_v2 registry and grouping switch. -/
theorem c7_channel_grouping (k : String) (c : KpiConfig) (h : KPI_MAP k = some c)
    (b : V4Body) (hk : b.kpi = k) (hg : b.groupBy = "channel")
    (k2 : String) (c2 : KpiConfigV2) (_h2 : KPI_MAP_v2 k2 = some c2) :
    (c.hasChannel = false →
      (compileV4 b).map CompiledV4.selectClause = some "'All Channels' as dimension" ∧
      (compileV4 b).map CompiledV4.groupByClause = some "") ∧
    (c.hasChannel = true →
      (compileV4 b).map CompiledV4.selectClause = some "channel as dimension" ∧
      (compileV4 b).map CompiledV4.groupByClause = some "GROUP BY channel") ∧
    (c2.hasChannel = false →
      resolveGroupingV2 "channel" c2 =
        ⟨"'All Channels' as dimension", "", "ORDER BY val_cy DESC"⟩) ∧
    (c2.hasChannel = true →
      resolveGroupingV2 "channel" c2 =
        ⟨"channel as dimension", "GROUP BY channel", "ORDER BY val_cy DESC"⟩) := by
  subst hk
  refine ⟨?_, ?_, ?_, ?_⟩
  · intro hc
    constructor <;>
      simp [compileV4, h, hg, resolveGroupingV4_channel, hc]
  · intro hc
    constructor <;>
      simp [compileV4, h, hg, resolveGroupingV4_channel, hc]
  · intro hc
    rw [resolveGroupingV2_channel, hc]
    rfl
  · intro hc
    rw [resolveGroupingV2_channel, hc]
    rfl

/-- C7 witness: the revenue KPI has hasChannel = false in both
registries; the volume KPI has it true. -/
theorem c7_witness :
    ((⟨"mbmc_actuals_revenue", "net_rev", false, "WSLR_NBR", Agg.SUM⟩ : KpiConfig).hasChannel = false →
      (compileV4 { kpi := "revenue", groupBy := "channel" }).map CompiledV4.selectClause =
        some "'All Channels' as dimension" ∧
      (compileV4 { kpi := "revenue", groupBy := "channel" }).map CompiledV4.groupByClause =
        some "") ∧
    ((⟨"mbmc_actuals_revenue", "net_rev", false, "WSLR_NBR", Agg.SUM⟩ : KpiConfig).hasChannel = true →
      (compileV4 { kpi := "revenue", groupBy := "channel" }).map CompiledV4.selectClause =
        some "channel as dimension" ∧
      (compileV4 { kpi := "revenue", groupBy := "channel" }).map CompiledV4.groupByClause =
        some "GROUP BY channel") ∧
    ((⟨"mbmc_actuals_revenue", "VAL", false, "WSLR_NBR"⟩ : KpiConfigV2).hasChannel = false →
      resolveGroupingV2 "channel" ⟨"mbmc_actuals_revenue", "VAL", false, "WSLR_NBR"⟩ =
        ⟨"'All Channels' as dimension", "", "ORDER BY val_cy DESC"⟩) ∧
    ((⟨"mbmc_actuals_revenue", "VAL", false, "WSLR_NBR"⟩ : KpiConfigV2).hasChannel = true →
      resolveGroupingV2 "channel" ⟨"mbmc_actuals_revenue", "VAL", false, "WSLR_NBR"⟩ =
        ⟨"channel as dimension", "GROUP BY channel", "ORDER BY val_cy DESC"⟩) :=
  c7_channel_grouping "revenue" ⟨"mbmc_actuals_revenue", "net_rev", false, "WSLR_NBR", Agg.SUM⟩
    rfl { kpi := "revenue", groupBy := "channel" } rfl rfl
    "revenue" ⟨"mbmc_actuals_revenue", "VAL", false, "WSLR_NBR"⟩ rfl

theorem allow_pair_of_not_reject (a b : Bool) (h : ¬(!a || !b) = true) :
    a = true ∧ b = true := by
  rcases Bool.eq_false_or_eq_true a with ha | ha
  · rcases Bool.eq_false_or_eq_true b with hb | hb
    · exact ⟨ha, hb⟩
    · exact absurd (by simp [hb]) h
  · exact absurd (by simp [ha]) h

theorem reject_pair_of_or (a b : Bool) (h : (!a || !b) = true) :
    ¬(a = true ∧ b = true) := by
  rintro ⟨ha, hb⟩
  rw [ha, hb] at h
  cases h

/-- C8: in both distinct-value listing handlers, SQL is built and
submitted exactly when the requested dimension is in the column
allowlist and the requested table is in the table allowlist; every pair
outside the Cartesian product of the two allowlists is answered by a
client error branch that carries no SQL. -/
theorem c8_allowlist_cartesian_gate (d t : String) :
    ((∃ s, filtersFront d t = FiltersFront.execute s) ↔
      ALLOWED_COLS.contains d = true ∧ ALLOWED_TABLES.contains t = true) ∧
    ((∃ s, filtersFrontV3 d t = FiltersFront.execute s) ↔
      ALLOWED_COLS_v3.contains d = true ∧ ALLOWED_TABLES_v3.contains t = true) ∧
    (¬(ALLOWED_COLS.contains d = true ∧ ALLOWED_TABLES.contains t = true) →
      filtersFront d t = FiltersFront.missingFields ∨
      filtersFront d t =
        FiltersFront.invalidPair ("Invalid dimension '" ++ d ++ "' or table '" ++ t ++ "'")) := by
  refine ⟨?_, ?_, ?_⟩
  · unfold filtersFront
    split_ifs with h1 h2
    · constructor
      · rintro ⟨s, hs⟩
        cases hs
      · rintro ⟨hc, ht⟩
        rcases Bool.or_eq_true_iff.mp h1 with he | he
        · rw [decide_eq_true_iff] at he
          subst he
          cases hc
        · rw [decide_eq_true_iff] at he
          subst he
          cases ht
    · constructor
      · rintro ⟨s, hs⟩
        cases hs
      · intro hp
        exact absurd hp (reject_pair_of_or _ _ h2)
    · exact ⟨fun _ => allow_pair_of_not_reject _ _ h2, fun _ => ⟨_, rfl⟩⟩
  · unfold filtersFrontV3
    split_ifs with h1 h2
    · constructor
      · rintro ⟨s, hs⟩
        cases hs
      · rintro ⟨hc, ht⟩
        rcases Bool.or_eq_true_iff.mp h1 with he | he
        · rw [decide_eq_true_iff] at he
          subst he
          cases hc
        · rw [decide_eq_true_iff] at he
          subst he
          cases ht
    · constructor
      · rintro ⟨s, hs⟩
        cases hs
      · intro hp
        exact absurd hp (reject_pair_of_or _ _ h2)
    · exact ⟨fun _ => allow_pair_of_not_reject _ _ h2, fun _ => ⟨_, rfl⟩⟩
  · intro hout
    unfold filtersFront
    split_ifs with h1 h2
    · exact Or.inl rfl
    · exact Or.inr rfl
    · exact absurd (allow_pair_of_not_reject _ _ h2) hout

/-- C8 witness: a dimension outside the allowlist is rejected. -/
theorem c8_witness :
    filtersFront "bogus_col" "mbmc_actuals_volume" = FiltersFront.missingFields ∨
    filtersFront "bogus_col" "mbmc_actuals_volume" =
      FiltersFront.invalidPair "Invalid dimension 'bogus_col' or table 'mbmc_actuals_volume'" :=
  (c8_allowlist_cartesian_gate "bogus_col" "mbmc_actuals_volume").2.2 (by decide)

/-- C9: statement compilation is deterministic — the compiled SQL text of
the switch-based handler and of the KPI_MAP handler depends only on the
request fields kpi, groupBy, scope, max_month and filters (and the
static registry); two requests agreeing on those fields compile to the
identical statement text regardless of any other field. -/
theorem c9_compilation_deterministic (r1 r2 : QBody) (b1 b2 : V4Body)
    (hk : r1.kpi = r2.kpi) (hg : r1.groupBy = r2.groupBy) (hs : r1.scope = r2.scope)
    (hm : r1.max_month = r2.max_month) (hf : r1.filters = r2.filters)
    (gk : b1.kpi = b2.kpi) (gg : b1.groupBy = b2.groupBy) (gs : b1.scope = b2.scope)
    (gm : b1.max_month = b2.max_month) (gf : b1.filters = b2.filters) :
    renderQ (compileQ r1) = renderQ (compileQ r2) ∧
    (compileV4 b1).map renderV4 = (compileV4 b2).map renderV4 := by
  cases r1
  cases r2
  cases b1
  cases b2
  dsimp only at hk hg hs hm hf gk gg gs gm gf
  subst hk
  subst hg
  subst hs
  subst hm
  subst hf
  subst gk
  subst gg
  subst gs
  subst gm
  subst gf
  exact ⟨rfl, rfl⟩

/-- C9 witness: two request pairs agreeing on the compiled fields but
differing in months and contract_version compile identically. -/
theorem c9_witness :
    renderQ (compileQ { kpi := "volume", groupBy := "region", scope := "YTD", max_month := "202510", months := ["202501", "202502"] }) =
      renderQ (compileQ { kpi := "volume", groupBy := "region", scope := "YTD", max_month := "202510", contract_version := "kpi_request.v1" }) ∧
    (compileV4 { kpi := "share", contract_version := "" }).map renderV4 =
      (compileV4 { kpi := "share", contract_version := "other" }).map renderV4 :=
  c9_compilation_deterministic
    { kpi := "volume", groupBy := "region", scope := "YTD", max_month := "202510", months := ["202501", "202502"] }
    { kpi := "volume", groupBy := "region", scope := "YTD", max_month := "202510", contract_version := "kpi_request.v1" }
    { kpi := "share", contract_version := "" }
    { kpi := "share", contract_version := "other" }
    rfl rfl rfl rfl rfl rfl rfl rfl rfl rfl

/-- C10: in the switch-based handler, the table interpolated into the
FROM clause is always one of the eight fixed mbmc_actuals literals; any
kpi string outside the eight recognized names resolves to the
mbmc_actuals_volume fallback, and the compiled statement's table is
exactly the switch's result, so no caller-supplied text can become the
table name. -/
theorem c10_table_closed_set (k : String) (b : QBody) :
    resolveTable k ∈ ["mbmc_actuals_volume", "mbmc_actuals_revenue", "mbmc_actuals_share",
      "mbmc_actuals_adshare", "mbmc_actuals_pods", "mbmc_actuals_taps",
      "mbmc_actuals_displays", "mbmc_actuals_avd"] ∧
    (k ∉ ["volume", "revenue", "share", "adshare", "pods", "taps", "displays", "avd"] →
      resolveTable k = "mbmc_actuals_volume") ∧
    (compileQ b).table = resolveTable b.kpi := by
  refine ⟨?_, ?_, rfl⟩
  · unfold resolveTable
    split_ifs <;> simp
  · intro h
    simp only [List.mem_cons, List.not_mem_nil, or_false, not_or] at h
    obtain ⟨h1, h2, h3, h4, h5, h6, h7, h8⟩ := h
    unfold resolveTable
    rw [if_neg h1, if_neg h2, if_neg h3, if_neg h4, if_neg h5, if_neg h6, if_neg h7, if_neg h8]

/-- C10 witness: an attacker-controlled kpi string resolves to the
volume fallback table. -/
theorem c10_witness :
    resolveTable "x; DROP TABLE users" = "mbmc_actuals_volume" :=
  (c10_table_closed_set "x; DROP TABLE users" {}).2.1 (by decide)
